import Mathlib

/-!
Verification of the layout-solver and verification-pipeline core of the
morph repository against its design specification.

The Python modules under `backend/app/solver` and `backend/app/validators`
are shallowly embedded below:

* `LayoutNode` / `LayoutEdge` / `LayoutGraph` embed `solver/layout_graph.py`
  (fields that no verified operation reads — `anchor`, the `networkx`
  mirror graph, and the write-back `solved_*` fields — are omitted; the
  solver returns its assignment functionally here).
* The CP-SAT model built by `ConstraintSolver.solve`
  (`solver/constraint_solver.py`) is embedded as the decidable predicate
  `layoutSatisfied`: the exact variable domains, boundary constraints,
  reified non-overlap disjunctions and per-edge constraints that the
  Python code posts.  OR-Tools itself is external code; its contract is
  that a solve with `success=True` returns an assignment satisfying every
  posted constraint (a timeout or infeasibility only ever removes
  successes).  Theorems about "every successful solve result" therefore
  quantify over assignments satisfying `layoutSatisfied`.
* `RelaxationEngine` (`solver/relaxation.py`) is embedded by the state
  sequence `relaxStateAt`: state `i` is the graph/relaxed-level pair used
  by solve attempt `i+1` when all earlier attempts failed.
* `VerificationPipeline.verify` (`pipeline/verification.py`) is embedded
  as a function of the five validator outcomes; the control flow is
  stated as a function of the boolean returned by the spatial
  auto-correction callback so it can be analyzed for either value, and
  `tryAutoCorrectSpatial` embeds the source's actual callback
  `_try_auto_correct_spatial`, which always returns `False`;
  `verifyRun` is the staged composition of the two.
* `ColorValidator._normalize_color` (`validators/color_validator.py`) and
  `WCAGValidator` (`validators/wcag_validator.py`) are embedded over
  `List Char` / `ℚ` / `ℝ`; Python `str.lower`/`str.upper` are modelled by
  the per-character ASCII case maps (the colour grammar is ASCII), and
  IEEE-754 float arithmetic by real arithmetic.

Integer arithmetic: Python ints are unbounded, so `Int` is used directly.
Python float steps (`int(v * 0.8)`) are noted where they occur; no claim
depends on their exact rounding.
-/

namespace Morph

/-! ### ASCII character helpers

Python `str.strip`, `str.lower`, `str.upper` restricted to the ASCII
behaviour that the colour grammar exercises. -/

/-- ASCII lower-casing on code points: shift the range `A`-`Z`. -/
def lowerN (n : Nat) : Nat := if 65 ≤ n ∧ n ≤ 90 then n + 32 else n

/-- ASCII upper-casing on code points: shift the range `a`-`z`. -/
def upperN (n : Nat) : Nat := if 97 ≤ n ∧ n ≤ 122 then n - 32 else n

/-- Python `str.lower`, per character (ASCII model). -/
def pyLower (c : Char) : Char := Char.ofNat (lowerN c.toNat)

/-- Python `str.upper`, per character (ASCII model). -/
def pyUpper (c : Char) : Char := Char.ofNat (upperN c.toNat)

/-- Python `str.strip` whitespace set: space, tab, LF, VT, FF, CR. -/
def isPySpace (c : Char) : Bool := c.toNat ∈ [32, 9, 10, 11, 12, 13]

/-- Python `str.strip`: drop whitespace from both ends. -/
def pyStrip (l : List Char) : List Char :=
  (((l.dropWhile isPySpace).reverse.dropWhile isPySpace)).reverse

/-! ### Association-list lookups (Python `dict` access, insertion order kept) -/

/-- Lookup in an insertion-ordered association list (Python `dict.get`). -/
def alookup {κ α : Type} [DecidableEq κ] : List (κ × α) → κ → Option α
  | [], _ => none
  | (k', v) :: rest, k => if k' = k then some v else alookup rest k

/-- Python `d[k] = v` on an insertion-ordered dict: replace in place if the
key exists, else append. -/
def dictInsert {κ α : Type} [DecidableEq κ] : List (κ × α) → κ → α → List (κ × α)
  | [], k, v => [(k, v)]
  | (k', v') :: rest, k, v =>
      if k' = k then (k, v) :: rest else (k', v') :: dictInsert rest k v

/-! ### Layout graph data model (`solver/layout_graph.py`) -/

/-- `EdgeType` from `layout_graph.py`: the relationship kinds between
layout elements. -/
inductive EdgeType where
  | BELOW | RIGHT_OF | ABOVE | LEFT_OF
  | ALIGN_LEFT | ALIGN_RIGHT | ALIGN_CENTER_X | ALIGN_CENTER_Y
  | ALIGN_TOP | ALIGN_BOTTOM
  | INSIDE
  | MARGIN
deriving DecidableEq, Repr

/-- `LayoutNode` from `layout_graph.py`.  The `anchor` hint and the
post-solve `solved_*` fields are omitted: no embedded operation reads
them (the solver here returns its assignment functionally instead of
writing it back). -/
structure LayoutNode where
  id : String
  node_type : String
  min_width : Int := 0
  max_width : Option Int := none
  min_height : Int := 0
  max_height : Option Int := none
  fixed_width : Option Int := none
  fixed_height : Option Int := none
  content : Option String := none
  font_size : Option Int := none
deriving DecidableEq, Repr

/-- `LayoutEdge` from `layout_graph.py`: a constraint between two
elements, with a pixel value and a relaxation priority
(0 = hard, 1 = structural, 2 = aesthetic). -/
structure LayoutEdge where
  source_id : String
  target_id : String
  edge_type : EdgeType
  value : Int := 0
  priority : Int := 1
deriving DecidableEq, Repr

/-- `LayoutGraph` from `layout_graph.py`: canvas size, the insertion-ordered
id-to-node dict, and the ordered edge list.  The mirror `networkx.DiGraph`
is omitted: the solver and relaxation engine read only `nodes` and
`edges`. -/
structure LayoutGraph where
  canvas_width : Int := 1200
  canvas_height : Int := 630
  nodes : List (String × LayoutNode) := []
  edges : List LayoutEdge := []
deriving DecidableEq, Repr

/-- `LayoutGraph.add_node`: `self.nodes[node.id] = node` — a plain dict
assignment, so an existing id is silently overwritten. -/
def addNode (g : LayoutGraph) (node : LayoutNode) : LayoutGraph :=
  { g with nodes := dictInsert g.nodes node.id node }

/-- `LayoutGraph.add_edge`: raises `ValueError` when either endpoint id is
absent, else appends the edge. -/
def addEdge (g : LayoutGraph) (edge : LayoutEdge) : Except String LayoutGraph :=
  if (alookup g.nodes edge.source_id).isNone then
    .error ("Source node '" ++ edge.source_id ++ "' not found")
  else if (alookup g.nodes edge.target_id).isNone then
    .error ("Target node '" ++ edge.target_id ++ "' not found")
  else
    .ok { g with edges := g.edges ++ [edge] }

/-! ### The CP-SAT constraint model (`solver/constraint_solver.py`)

`ConstraintSolver.solve` rebuilds the model from scratch on every call:
`_create_variables`, `_add_boundary_constraints`,
`_add_non_overlap_constraints`, `_add_edge_constraints(skip_priorities)`.
A solve attempt succeeds exactly when OR-Tools finds an assignment of the
integer variables satisfying every posted constraint; the predicate
`layoutSatisfied` below is that constraint set. -/

/-- Values of the four CP-SAT variables of one node. -/
structure Rect where
  x : Int
  y : Int
  w : Int
  h : Int
deriving DecidableEq, Repr

/-- An assignment of rectangle variables to node ids (the `elements` dict
of a successful `SolvedLayout`). -/
def Assignment : Type := List (String × Rect)

/-- Python truthiness of an optional int field (`if node.fixed_width:`):
`None` and `0` are falsy. -/
def truthy : Option Int → Option Int
  | some v => if v = 0 then none else some v
  | none => none

/-- Width variable domain from `_create_variables`: a truthy `fixed_width`
pins the variable, otherwise `[max(1, min_width), min(max_width or canvas_width, canvas_width)]`. -/
def widthDomain (g : LayoutGraph) (n : LayoutNode) : Int × Int :=
  match truthy n.fixed_width with
  | some f => (f, f)
  | none => (max 1 n.min_width, min ((truthy n.max_width).getD g.canvas_width) g.canvas_width)

/-- Height variable domain from `_create_variables`. -/
def heightDomain (g : LayoutGraph) (n : LayoutNode) : Int × Int :=
  match truthy n.fixed_height with
  | some f => (f, f)
  | none => (max 1 n.min_height, min ((truthy n.max_height).getD g.canvas_height) g.canvas_height)

/-- Variable domains of `_create_variables`: `x ∈ [0, canvas_width]`,
`y ∈ [0, canvas_height]`, and the dimension domains. -/
def checkDomains (g : LayoutGraph) (asn : Assignment) : Bool :=
  g.nodes.all fun p =>
    match alookup asn p.1 with
    | some r =>
        decide (0 ≤ r.x ∧ r.x ≤ g.canvas_width ∧ 0 ≤ r.y ∧ r.y ≤ g.canvas_height ∧
          (widthDomain g p.2).1 ≤ r.w ∧ r.w ≤ (widthDomain g p.2).2 ∧
          (heightDomain g p.2).1 ≤ r.h ∧ r.h ≤ (heightDomain g p.2).2)
    | none => false

/-- `_add_boundary_constraints`: `x + width ≤ canvas_width` and
`y + height ≤ canvas_height` for every node. -/
def checkBoundary (g : LayoutGraph) (asn : Assignment) : Bool :=
  g.nodes.all fun p =>
    match alookup asn p.1 with
    | some r => decide (r.x + r.w ≤ g.canvas_width ∧ r.y + r.h ≤ g.canvas_height)
    | none => false

/-- Existential over a CP-SAT boolean variable. -/
def existsB (p : Bool → Bool) : Bool := p false || p true

/-- The reified non-overlap constraint of `_add_non_overlap_constraints`
for one ordered pair: four boolean variables `left_of/right_of/above/below`,
each implying its separation inequality (`OnlyEnforceIf`), at least one
true (`AddBoolOr`).  A solution assigns the booleans too, hence the
existential. -/
def pairNonOverlapB (ra rb : Rect) : Bool :=
  existsB fun lo => existsB fun ro => existsB fun ab => existsB fun be =>
    (!lo || decide (ra.x + ra.w ≤ rb.x)) &&
    (!ro || decide (rb.x + rb.w ≤ ra.x)) &&
    (!ab || decide (ra.y + ra.h ≤ rb.y)) &&
    (!be || decide (rb.y + rb.h ≤ ra.y)) &&
    (lo || ro || ab || be)

/-- `_add_non_overlap_constraints` ranges over unordered pairs in node
order (`for i, id_a, for id_b in node_ids[i+1:]`). -/
def checkPairs (asn : Assignment) : List (String × LayoutNode) → Bool
  | [] => true
  | (ida, _) :: rest =>
      (rest.all fun q =>
        match alookup asn ida, alookup asn q.1 with
        | some ra, some rb => pairNonOverlapB ra rb
        | _, _ => false) &&
      checkPairs asn rest

/-- Constraint posted by `_add_edge_constraints` for one edge (the
unhandled `ALIGN_RIGHT/ALIGN_TOP/ALIGN_BOTTOM/MARGIN` kinds post
nothing, exactly as in the source `elif` chain). -/
def edgeOk (e : LayoutEdge) (va vb : Rect) : Bool :=
  match e.edge_type with
  | .BELOW => decide (va.y + va.h + e.value ≤ vb.y)
  | .ABOVE => decide (vb.y + vb.h + e.value ≤ va.y)
  | .RIGHT_OF => decide (va.x + va.w + e.value ≤ vb.x)
  | .LEFT_OF => decide (vb.x + vb.w + e.value ≤ va.x)
  | .ALIGN_LEFT => decide (va.x = vb.x)
  | .ALIGN_CENTER_X => decide (2 * va.x + va.w = 2 * vb.x + vb.w)
  | .ALIGN_CENTER_Y => decide (2 * va.y + va.h = 2 * vb.y + vb.h)
  | .INSIDE => decide (va.x ≤ vb.x ∧ vb.x + vb.w ≤ va.x + va.w ∧
      va.y ≤ vb.y ∧ vb.y + vb.h ≤ va.y + va.h)
  | _ => true

/-- `_add_edge_constraints(skip_priorities)`: edges whose priority is in
the skip set are omitted; an edge whose endpoints have no variables is
skipped (`if not va or not vb: continue`). -/
def checkEdges (g : LayoutGraph) (skip : List Int) (asn : Assignment) : Bool :=
  g.edges.all fun e =>
    if e.priority ∈ skip then true
    else
      match alookup g.nodes e.source_id, alookup g.nodes e.target_id with
      | some _, some _ =>
          match alookup asn e.source_id, alookup asn e.target_id with
          | some va, some vb => edgeOk e va vb
          | _, _ => false
      | _, _ => true

/-- The complete constraint model of one `ConstraintSolver.solve` call.
A solve attempt returns `success=True` exactly when OR-Tools finds an
assignment making this predicate true, and then `elements` is such an
assignment. -/
def layoutSatisfied (g : LayoutGraph) (skip : List Int) (asn : Assignment) : Bool :=
  checkDomains g asn && checkBoundary g asn && checkPairs asn g.nodes &&
    checkEdges g skip asn

/-! ### Relaxation engine (`solver/relaxation.py`)

`RelaxationEngine.solve_with_relaxation` loops `iteration = 0..max_iterations-1`
(default 5), solving with the current graph and `relaxed_levels` and, on
failure, degrading per the branch on `iteration`; after the loop a final
attempt runs on the fully degraded state.  `relaxStateAt g i` is the
graph/relaxed-levels/adjustments state used by attempt `i+1` when every
earlier attempt failed (the loop exits early on success, so the executed
attempts use a prefix of this sequence); `relaxStateAt g 5` is the state
of the final guaranteed-fallback attempt. -/

/-- `ConstraintPriority` values: HARD = 0, STRUCTURAL = 1, AESTHETIC = 2. -/
def HARD : Int := 0
def STRUCTURAL : Int := 1
def AESTHETIC : Int := 2

/-- Python `set.add` on the relaxed-levels set (kept as a duplicate-free
list). -/
def addLevel (ls : List Int) (v : Int) : List Int :=
  if v ∈ ls then ls else ls ++ [v]

/-- Python `int(v * 0.8)` of `_reduce_element_sizes`.  The source computes
this in binary floating point and truncates toward zero; for the
non-negative pixel dimensions in scope this is `⌊4v/5⌋`.  No claim below
depends on this arithmetic. -/
def shrink80 (v : Int) : Int := (v * 4) / 5

/-- `_reduce_element_sizes`: shrink each truthy max/fixed dimension by 20%. -/
def reduceNodeSizes (n : LayoutNode) : LayoutNode :=
  { n with
    max_width := match truthy n.max_width with
      | some v => some (shrink80 v) | none => n.max_width
    max_height := match truthy n.max_height with
      | some v => some (shrink80 v) | none => n.max_height
    fixed_width := match truthy n.fixed_width with
      | some v => some (shrink80 v) | none => n.fixed_width
    fixed_height := match truthy n.fixed_height with
      | some v => some (shrink80 v) | none => n.fixed_height }

def reduceElementSizes (g : LayoutGraph) : LayoutGraph :=
  { g with nodes := g.nodes.map fun p => (p.1, reduceNodeSizes p.2) }

/-- `_reduce_margins` on one edge: `if edge.value > 0: edge.value = max(4, edge.value // 2)`. -/
def reduceMarginEdge (e : LayoutEdge) : LayoutEdge :=
  if 0 < e.value then { e with value := max 4 (e.value / 2) } else e

def reduceMargins (g : LayoutGraph) : LayoutGraph :=
  { g with edges := g.edges.map reduceMarginEdge }

/-- `_apply_minimal_layout`: force every node to fixed width
`canvas_width - 32` and fixed height `min(max(40, canvas_height // n), 80)`,
and keep only priority-HARD edges.  (With zero nodes the source raises
`ZeroDivisionError`; Lean's total division returns 0 there — that state is
unreachable, since an empty model always solves on the first attempt.) -/
def applyMinimalLayout (g : LayoutGraph) : LayoutGraph :=
  let minHeight : Int := max 40 (g.canvas_height / (g.nodes.length : Int))
  { g with
    nodes := g.nodes.map fun p =>
      (p.1, { p.2 with
        fixed_width := some (g.canvas_width - 32)
        fixed_height := some (min minHeight 80) })
    edges := g.edges.filter fun e => e.priority = HARD }

/-- Mutable state of `solve_with_relaxation`: the (mutated) graph, the
relaxed priority levels, and the human-readable adjustment log. -/
structure RelaxState where
  graph : LayoutGraph
  relaxed_levels : List Int
  adjustments : List String
deriving DecidableEq, Repr

/-- The failure branch of loop iteration `iteration` in
`solve_with_relaxation`. -/
def relaxStep (iteration : Nat) (s : RelaxState) : RelaxState :=
  if iteration = 0 then
    { s with
      relaxed_levels := addLevel s.relaxed_levels AESTHETIC
      adjustments := s.adjustments ++ ["Relaxed aesthetic constraints (padding, alignment)"] }
  else if iteration = 1 then
    { s with
      relaxed_levels := addLevel s.relaxed_levels STRUCTURAL
      adjustments := s.adjustments ++ ["Relaxed structural constraints (spacing relationships)"] }
  else if iteration = 2 then
    { s with
      graph := reduceElementSizes s.graph
      adjustments := s.adjustments ++ ["Reduced element sizes by 20%"] }
  else if iteration = 3 then
    { s with
      graph := reduceMargins s.graph
      adjustments := s.adjustments ++ ["Reduced all margins by 50%"] }
  else
    { s with
      graph := applyMinimalLayout s.graph
      adjustments := s.adjustments ++ ["Applied minimal fallback layout"] }

/-- State used by solve attempt `i+1` of `solve_with_relaxation` when all
earlier attempts failed. -/
def relaxStateAt (g : LayoutGraph) : Nat → RelaxState
  | 0 => ⟨g, [], []⟩
  | n + 1 => relaxStep n (relaxStateAt g n)

/-- Whether the edge at index `k` of the graph edge list enters the
constraint model when the levels `ls` are skipped: priority not relaxed
and both endpoint ids carrying variables. -/
def edgeIncludedP (g : LayoutGraph) (ls : List Int) (k : Nat) : Bool :=
  match g.edges.get? k with
  | some e =>
      decide (e.priority ∉ ls) &&
      (alookup g.nodes e.source_id).isSome &&
      (alookup g.nodes e.target_id).isSome
  | none => false

/-- Indices (into `graph.edges`) of the edges included in the constraint
model built for a state. -/
def includedEdgeIdx (s : RelaxState) : List Nat :=
  (List.range s.graph.edges.length).filter (edgeIncludedP s.graph s.relaxed_levels)

/-! ### Verification pipeline (`pipeline/verification.py`)

`VerificationPipeline.verify` runs the five layers in order, building a
`VerificationReport`.  The five validator calls
(`SVGValidator.validate`, `SpatialValidator.validate`,
`_verify_text_readability`, `ColorValidator.validate`,
`_verify_rendering`) each return a `(passed, errors)` pair; `verify` is
embedded as a function of those five outcomes, which captures exactly
its control flow.  The report timestamp (wall clock) is omitted.

The spatial auto-correction callback `_try_auto_correct_spatial`
unconditionally returns `False` in the source (its body is a TODO stub
for the SVG-to-solver round trip); it is embedded below as
`tryAutoCorrectSpatial`.  `verify` takes the callback's boolean result
as the parameter `autoCorrected` so that the aggregation logic can be
analyzed for either value, and `verifyRun` instantiates it with the
source's actual callback result. -/

/-- `VerificationResult` status values. -/
inductive VStatus where
  | PASS | FAIL | WARNING | SKIPPED | AUTO_CORRECTED
deriving DecidableEq, Repr

/-- `FailureAction` values. -/
inductive FailureAction where
  | REJECT | TRIGGER_SOLVER | REFINEMENT
deriving DecidableEq, Repr

/-- `LayerResult` dataclass. -/
structure LayerResult where
  status : VStatus
  errors : List String
  action : Option FailureAction := none
  refinement_prompt : Option String := none
  auto_corrected : Bool := false
deriving DecidableEq, Repr

/-- `VerificationReport` dataclass (without the wall-clock timestamp).
`layers` is the insertion-ordered dict from layer name to result. -/
structure VerificationReport where
  overall : VStatus
  layers : List (String × LayerResult) := []
  needs_solver : Bool := false
  refinement_prompts : List String := []
deriving DecidableEq, Repr

/-- One `(passed, errors)` validator outcome. -/
structure ValidatorOutcome where
  passed : Bool
  errors : List String
deriving DecidableEq, Repr

/-- Pipeline configuration (`VerificationPipeline.__init__`). -/
structure VPipeline where
  canvas_width : Int := 1200
  canvas_height : Int := 630
  approved_palette : Option (List String) := none
  min_font_size : Int := 14
  enable_auto_correction : Bool := true
deriving DecidableEq, Repr

/-- The bulleted error list used by every refinement-prompt generator. -/
def bulletJoin (errors : List String) : String :=
  String.intercalate "\n" (errors.map fun e => "  • " ++ e)

def genSyntaxPrompt (errors : List String) : String :=
  "[SYNTAX ERROR] The SVG is malformed and cannot be parsed:\n" ++ bulletJoin errors ++
    "\n\nFix: Ensure the SVG is valid XML with proper tag structure."

def genSpatialPrompt (p : VPipeline) (errors : List String) : String :=
  "[SPATIAL ERROR] Layout constraints violated:\n" ++ bulletJoin errors ++
    "\n\nFix: Adjust element positions to stay within canvas (" ++
    toString p.canvas_width ++ "x" ++ toString p.canvas_height ++ ") and prevent overlaps."

def genTextPrompt (p : VPipeline) (errors : List String) : String :=
  "[READABILITY ERROR] Text accessibility issues:\n" ++ bulletJoin errors ++
    "\n\nFix: Increase font size (min " ++ toString p.min_font_size ++
    "px) or adjust colors for WCAG 4.5:1 contrast."

def genColorPrompt (p : VPipeline) (errors : List String) : String :=
  let paletteStr := match p.approved_palette with
    | some (c :: cs) => String.intercalate ", " (c :: cs)
    | _ => "no palette defined"
  "[COLOR ERROR] Unauthorized colors detected:\n" ++ bulletJoin errors ++
    "\n\nFix: Use only approved palette colors: " ++ paletteStr

def genRenderPrompt (errors : List String) : String :=
  "[RENDER ERROR] Visual output issues:\n" ++ bulletJoin errors ++
    "\n\nFix: Ensure elements are visible (not transparent/white-on-white) and properly sized."

/-- `VerificationPipeline.verify`, as a function of the five validator
outcomes and of the boolean returned by the `_try_auto_correct_spatial`
call (in the source that boolean is always `False`; see
`tryAutoCorrectSpatial` and `verifyRun`).  Mirrors the source statement
by statement: a syntax failure returns early with only the syntax layer
recorded; a spatial failure sets `needs_solver` and `overall = FAIL`
before auto-correction is attempted, and a successful correction updates
only the layer status, the `auto_corrected` flag and `needs_solver`;
text/color/render failures append refinement prompts and set
`overall = FAIL`. -/
def verify (p : VPipeline) (synO spatO textO colorO renderO : ValidatorOutcome)
    (autoCorrected : Bool) : VerificationReport :=
  if synO.passed = false then
    let prompt := genSyntaxPrompt synO.errors
    { overall := .FAIL
      layers := [("syntax",
        { status := .FAIL
          errors := synO.errors
          action := some .REJECT
          refinement_prompt := some prompt })]
      needs_solver := false
      refinement_prompts := [prompt] }
  else
    let r1 : VerificationReport :=
      { overall := .PASS
        layers := [("syntax", { status := .PASS, errors := [] })] }
    let r2 :=
      if spatO.passed = false then
        let base : LayerResult :=
          { status := .FAIL
            errors := spatO.errors
            action := some .TRIGGER_SOLVER
            refinement_prompt := some (genSpatialPrompt p spatO.errors) }
        if p.enable_auto_correction && autoCorrected then
          { r1 with
            overall := .FAIL
            needs_solver := false
            layers := r1.layers ++
              [("spatial", { base with status := .AUTO_CORRECTED, auto_corrected := true })] }
        else
          { r1 with
            overall := .FAIL
            needs_solver := true
            layers := r1.layers ++ [("spatial", base)] }
      else
        { r1 with layers := r1.layers ++ [("spatial", { status := .PASS, errors := [] })] }
    let r3 :=
      if textO.passed = false then
        let prompt := genTextPrompt p textO.errors
        { r2 with
          overall := .FAIL
          layers := r2.layers ++ [("text_readability",
            ({ status := .FAIL
               errors := textO.errors
               action := some .REFINEMENT
               refinement_prompt := some prompt } : LayerResult))]
          refinement_prompts := r2.refinement_prompts ++ [prompt] }
      else
        { r2 with layers := r2.layers ++ [("text_readability", ({ status := .PASS, errors := [] } : LayerResult))] }
    let r4 :=
      if colorO.passed = false then
        let prompt := genColorPrompt p colorO.errors
        { r3 with
          overall := .FAIL
          layers := r3.layers ++ [("color_palette",
            ({ status := .FAIL
               errors := colorO.errors
               action := some .REFINEMENT
               refinement_prompt := some prompt } : LayerResult))]
          refinement_prompts := r3.refinement_prompts ++ [prompt] }
      else
        { r3 with layers := r3.layers ++ [("color_palette", ({ status := .PASS, errors := [] } : LayerResult))] }
    let r5 :=
      if renderO.passed = false then
        let prompt := genRenderPrompt renderO.errors
        { r4 with
          overall := .FAIL
          layers := r4.layers ++ [("rendering",
            ({ status := .FAIL
               errors := renderO.errors
               action := some .REFINEMENT
               refinement_prompt := some prompt } : LayerResult))]
          refinement_prompts := r4.refinement_prompts ++ [prompt] }
      else
        { r4 with layers := r4.layers ++ [("rendering", ({ status := .PASS, errors := [] } : LayerResult))] }
    r5

/-- `VerificationPipeline._try_auto_correct_spatial`: the body is a TODO
stub — every path returns `False` (the `try` returns `False` directly,
and both `except` arms return `False`). -/
def tryAutoCorrectSpatial : Bool := false

/-- `VerificationPipeline.verify` as staged: the auto-correction argument
is the value actually returned by `_try_auto_correct_spatial`. -/
def verifyRun (p : VPipeline) (synO spatO textO colorO renderO : ValidatorOutcome) :
    VerificationReport :=
  verify p synO spatO textO colorO renderO tryAutoCorrectSpatial

/-! ### Colour normalization (`validators/color_validator.py`)

`ColorValidator._normalize_color` lower-cases the stripped input, looks it
up in the named-colour table, then tries `#`-hex (with 3-digit shorthand
expansion), then `rgb()`, then `rgba()` (both matched as prefixes, as
`re.match` does), returning `None` when nothing matches.  Strings are
embedded as their character lists. -/

/-- `NAMED_COLORS` from `color_validator.py`; `transparent`/`none` map to
Python `None`. -/
def namedColors : List (List Char × Option (List Char)) :=
  [("white".data, some "#FFFFFF".data),
   ("black".data, some "#000000".data),
   ("red".data, some "#FF0000".data),
   ("green".data, some "#00FF00".data),
   ("blue".data, some "#0000FF".data),
   ("yellow".data, some "#FFFF00".data),
   ("orange".data, some "#FFA500".data),
   ("purple".data, some "#800080".data),
   ("gray".data, some "#808080".data),
   ("grey".data, some "#808080".data),
   ("cyan".data, some "#00FFFF".data),
   ("magenta".data, some "#FF00FF".data),
   ("lime".data, some "#00FF00".data),
   ("navy".data, some "#000080".data),
   ("teal".data, some "#008080".data),
   ("maroon".data, some "#800000".data),
   ("olive".data, some "#808000".data),
   ("silver".data, some "#C0C0C0".data),
   ("aqua".data, some "#00FFFF".data),
   ("fuchsia".data, some "#FF00FF".data),
   ("transparent".data, none),
   ("none".data, none)]

/-- Regex `\s*`: skip whitespace. -/
def skipSpaces (l : List Char) : List Char := l.dropWhile isPySpace

/-- ASCII decimal digit test (regex `\d`). -/
def digitB (c : Char) : Bool := decide (48 ≤ c.toNat ∧ c.toNat ≤ 57)

/-- Python `int` of a non-empty decimal digit string. -/
def natOfDigits (ds : List Char) : Nat :=
  ds.foldl (fun a c => 10 * a + (c.toNat - 48)) 0

/-- Regex `(\d+)` (greedy, at least one digit), returning the value and the
rest of the input. -/
def parseNat (l : List Char) : Option (Nat × List Char) :=
  match l.takeWhile digitB with
  | [] => none
  | ds => some (natOfDigits ds, l.drop ds.length)

/-- Match one literal character. -/
def expectC (c : Char) : List Char → Option (List Char)
  | [] => none
  | x :: xs => if x = c then some xs else none

/-- Regex `[\d.]+` of the rgba alpha component. -/
def parseFrac (l : List Char) : Option (List Char) :=
  match l.takeWhile (fun c => digitB c || c == '.') with
  | [] => none
  | ds => some (l.drop ds.length)

/-- `re.match(r'rgb\s*\(\s*(\d+)\s*,\s*(\d+)\s*,\s*(\d+)\s*\)', color)`:
a prefix match, trailing input ignored. -/
def parseRgb (l : List Char) : Option (Nat × Nat × Nat) := do
  let l ← expectC 'r' l
  let l ← expectC 'g' l
  let l ← expectC 'b' l
  let l ← expectC '(' (skipSpaces l)
  let (rv, l) ← parseNat (skipSpaces l)
  let l ← expectC ',' (skipSpaces l)
  let (gv, l) ← parseNat (skipSpaces l)
  let l ← expectC ',' (skipSpaces l)
  let (bv, l) ← parseNat (skipSpaces l)
  let _ ← expectC ')' (skipSpaces l)
  pure (rv, gv, bv)

/-- `re.match(r'rgba\s*\(\s*(\d+)\s*,\s*(\d+)\s*,\s*(\d+)\s*,\s*[\d.]+\s*\)', color)`. -/
def parseRgba (l : List Char) : Option (Nat × Nat × Nat) := do
  let l ← expectC 'r' l
  let l ← expectC 'g' l
  let l ← expectC 'b' l
  let l ← expectC 'a' l
  let l ← expectC '(' (skipSpaces l)
  let (rv, l) ← parseNat (skipSpaces l)
  let l ← expectC ',' (skipSpaces l)
  let (gv, l) ← parseNat (skipSpaces l)
  let l ← expectC ',' (skipSpaces l)
  let (bv, l) ← parseNat (skipSpaces l)
  let l ← expectC ',' (skipSpaces l)
  let l ← parseFrac (skipSpaces l)
  let _ ← expectC ')' (skipSpaces l)
  pure (rv, gv, bv)

/-- `min(255, max(0, int(...)))` — the parsed value is already a natural
number, so only the upper clamp acts. -/
def clamp255 (n : Nat) : Nat := min 255 n

/-- Upper-case hex digit of `f"{v:02X}"`. -/
def hexUpperDigit (n : Nat) : Char :=
  if n < 10 then Char.ofNat (48 + n) else Char.ofNat (55 + n)

/-- Two-digit upper-case hex rendering of a byte (`f"{v:02X}"`). -/
def toHex2 (n : Nat) : List Char := [hexUpperDigit (n / 16), hexUpperDigit (n % 16)]

/-- `f"#{r:02X}{g:02X}{b:02X}"` with the source's clamping. -/
def rgbHexOut (r g b : Nat) : List Char :=
  '#' :: (toHex2 (clamp255 r) ++ toHex2 (clamp255 g) ++ toHex2 (clamp255 b))

/-- 3-digit shorthand expansion: `''.join([c*2 for c in hex_val])`. -/
def expandShorthand (hv : List Char) : List Char := (hv.map fun c => [c, c]).flatten

/-- The body of `ColorValidator._normalize_color` after the first line
`color = color.strip().lower()` has produced `lc`: named-colour lookup,
then the `#`-hex branch (`startswith('#')` and the slice `color[1:]`),
then the `rgb()`/`rgba()` prefix matches. -/
def normCoreLC (lc : List Char) : Option (List Char) :=
  match alookup namedColors lc with
  | some v => v
  | none =>
    let hexRes : Option (List Char) :=
      if lc.head? = some '#' then
        let hv := lc.tail
        let hv2 := if hv.length = 3 then expandShorthand hv else hv
        if hv2.length = 6 then some ('#' :: hv2.map pyUpper) else none
      else none
    match hexRes with
    | some out => some out
    | none =>
      match parseRgb lc with
      | some (r, g, b) => some (rgbHexOut r g b)
      | none =>
        match parseRgba lc with
        | some (r, g, b) => some (rgbHexOut r g b)
        | none => none

/-- `ColorValidator._normalize_color` on character lists:
`color = color.strip().lower()`, then the branch cascade. -/
def normCore (l : List Char) : Option (List Char) :=
  normCoreLC ((pyStrip l).map pyLower)

/-- `ColorValidator._normalize_color` on strings. -/
def normalizeColor (s : String) : Option String :=
  (normCore s.data).map String.mk

/-! ### WCAG contrast (`validators/wcag_validator.py`)

`hex_to_rgb` is exact rational arithmetic in the source (small integers
divided by 255.0 are exact in binary floating point), embedded over `ℚ`.
`relative_luminance` and `contrast_ratio` use the float power `** 2.4`,
embedded as real `rpow`; the spec's ±0.01 tolerance absorbs the
difference between IEEE-754 evaluation and real arithmetic.
`hex_to_rgb` raises `ValueError` on malformed input, embedded as
`Option`. -/

/-- Hex digit value as accepted by `int(s, 16)` on a digit pair. -/
def hexDigitVal (c : Char) : Option Nat :=
  if 48 ≤ c.toNat ∧ c.toNat ≤ 57 then some (c.toNat - 48)
  else if 97 ≤ c.toNat ∧ c.toNat ≤ 102 then some (c.toNat - 87)
  else if 65 ≤ c.toNat ∧ c.toNat ≤ 70 then some (c.toNat - 55)
  else none

/-- `int(hex_color[i:i+2], 16)`. -/
def hexPair (c1 c2 : Char) : Option Nat := do
  let d1 ← hexDigitVal c1
  let d2 ← hexDigitVal c2
  pure (16 * d1 + d2)

/-- `WCAGValidator.hex_to_rgb`: strip leading `#`s, expand 3-digit
shorthand, parse three byte pairs, divide by 255. -/
def hexToRgb (s : String) : Option (ℚ × ℚ × ℚ) :=
  let l := s.data.dropWhile (fun c => c == '#')
  let l6 := if l.length = 3 then (l.map fun c => [c, c]).flatten else l
  match l6 with
  | [c1, c2, c3, c4, c5, c6] => do
      let r ← hexPair c1 c2
      let g ← hexPair c3 c4
      let b ← hexPair c5 c6
      pure ((r : ℚ) / 255, (g : ℚ) / 255, (b : ℚ) / 255)
  | _ => none

/-- The per-channel sRGB gamma linearization `linear` inside
`relative_luminance`. -/
noncomputable def linearize (v : ℚ) : ℝ :=
  if (v : ℝ) ≤ 0.03928 then (v : ℝ) / 12.92
  else (((v : ℝ) + 0.055) / 1.055) ^ (2.4 : ℝ)

/-- `WCAGValidator.relative_luminance`. -/
noncomputable def relativeLuminance (r g b : ℚ) : ℝ :=
  0.2126 * linearize r + 0.7152 * linearize g + 0.0722 * linearize b

/-- `WCAGValidator.contrast_ratio` (the `ValueError` of a malformed hex
colour becomes `none`). -/
noncomputable def contrastRatio (c1 c2 : String) : Option ℝ :=
  match hexToRgb c1, hexToRgb c2 with
  | some (r1, g1, b1), some (r2, g2, b2) =>
      let l1 := relativeLuminance r1 g1 b1
      let l2 := relativeLuminance r2 g2 b2
      some ((max l1 l2 + 0.05) / (min l1 l2 + 0.05))
  | _, _ => none

/-! ### Concrete instances used by witnesses and counterexamples -/

/-- Scenario A of the spec: one fixed 100 by 50 node on a 400 by 200
canvas. -/
def gScenarioA : LayoutGraph :=
  { canvas_width := 400
    canvas_height := 200
    nodes := [("box",
      { id := "box", node_type := "shape", fixed_width := some 100, fixed_height := some 50 })] }

def asnScenarioA : Assignment := [("box", { x := 0, y := 0, w := 100, h := 50 })]

/-- Scenario B of the spec: two fixed 100 by 100 nodes on a 300 by 200
canvas. -/
def gScenarioB : LayoutGraph :=
  { canvas_width := 300
    canvas_height := 200
    nodes := [("a",
      { id := "a", node_type := "shape", fixed_width := some 100, fixed_height := some 100 }),
      ("b",
      { id := "b", node_type := "shape", fixed_width := some 100, fixed_height := some 100 })] }

/-- A side-by-side solution of Scenario B. -/
def asnSideBySide : Assignment :=
  [("a", { x := 0, y := 0, w := 100, h := 100 }),
   ("b", { x := 100, y := 0, w := 100, h := 100 })]

/-- A diagonal solution of Scenario B: node `a` is simultaneously strictly
left of and strictly above node `b`. -/
def asnDiagonal : Assignment :=
  [("a", { x := 0, y := 0, w := 100, h := 100 }),
   ("b", { x := 110, y := 100, w := 100, h := 100 })]

/-- A node whose declared fixed width is negative (truthy in Python, so it
pins the width variable to -5). -/
def gNegFixed : LayoutGraph :=
  { canvas_width := 100
    canvas_height := 100
    nodes := [("n", { id := "n", node_type := "shape", fixed_width := some (-5) })] }

def asnNegFixed : Assignment := [("n", { x := 0, y := 0, w := -5, h := 10 })]

/-- A node with `min_width = min_height = 0` and no fixed dimensions. -/
def gMinZero : LayoutGraph :=
  { canvas_width := 50
    canvas_height := 50
    nodes := [("m", { id := "m", node_type := "text" })] }

def asnMinZero : Assignment := [("m", { x := 0, y := 0, w := 1, h := 1 })]

/-- Two nodes with the same id and different payloads, for `add_node`. -/
def nodeDupA : LayoutNode := { id := "a", node_type := "text" }

def nodeDupA2 : LayoutNode := { id := "a", node_type := "image" }

def graphDup : LayoutGraph :=
  addNode { canvas_width := 400, canvas_height := 200 } nodeDupA

/-- A graph on which the guaranteed relaxation fallback is infeasible: one
node with all-default dimensions on a positive 100 by 30 canvas.  The
fallback forces `fixed_height = min(max(40, 30 // 1), 80) = 40 > 30`. -/
def gFallback : LayoutGraph :=
  { canvas_width := 100
    canvas_height := 30
    nodes := [("a", { id := "a", node_type := "text" })] }

/-- The node of `gFallback` after `_apply_minimal_layout`: fixed to
`(100 - 32) = 68` wide and `min(max(40, 30 // 1), 80) = 40` high. -/
def nodeFallbackFinal : LayoutNode :=
  { id := "a", node_type := "text", fixed_width := some 68, fixed_height := some 40 }

/-- The graph of the final fallback solve attempt on `gFallback`. -/
def gFallbackFinal : LayoutGraph :=
  { canvas_width := 100
    canvas_height := 30
    nodes := [("a", nodeFallbackFinal)] }

/-- A two-node graph with one structural edge, used to instance the
relaxation monotonicity theorem. -/
def gTwoEdge : LayoutGraph :=
  { canvas_width := 400
    canvas_height := 200
    nodes := [("a", { id := "a", node_type := "text" }),
      ("b", { id := "b", node_type := "text" })]
    edges := [{ source_id := "a", target_id := "b", edge_type := .BELOW, value := 24, priority := 1 }] }

/-- The default pipeline configuration. -/
def pipeDefault : VPipeline := {}

/-! ## Theorems

### Character and dictionary lemmas -/

theorem toNat_ofNat_valid (n : Nat) (h : n.isValidChar) :
    (Char.ofNat n).toNat = n := by
  simp [Char.ofNat, h, Char.ofNatAux, Char.toNat, UInt32.ofNat', UInt32.toNat,
    BitVec.toNat_ofNat]

theorem char_toNat_valid (c : Char) : c.toNat.isValidChar := by
  have := c.valid
  simpa [UInt32.isValidChar, Char.toNat] using this

theorem lowerN_valid {n : Nat} (h : n.isValidChar) : (lowerN n).isValidChar := by
  unfold lowerN
  rcases h with h | h <;> split <;> [left; left; omega; right] <;> omega

theorem upperN_valid {n : Nat} (h : n.isValidChar) : (upperN n).isValidChar := by
  unfold upperN
  rcases h with h | h <;> split <;> [left; left; omega; right] <;> omega

theorem toNat_pyLower (c : Char) : (pyLower c).toNat = lowerN c.toNat :=
  toNat_ofNat_valid _ (lowerN_valid (char_toNat_valid c))

theorem toNat_pyUpper (c : Char) : (pyUpper c).toNat = upperN c.toNat :=
  toNat_ofNat_valid _ (upperN_valid (char_toNat_valid c))

theorem upperN_lowerN_upperN (n : Nat) : upperN (lowerN (upperN n)) = upperN n := by
  unfold upperN lowerN; split_ifs <;> omega

theorem lowerN_upperN_lowerN (n : Nat) : lowerN (upperN (lowerN n)) = lowerN n := by
  unfold upperN lowerN; split_ifs <;> omega

theorem pyUpper_pyLower_pyUpper (c : Char) :
    pyUpper (pyLower (pyUpper c)) = pyUpper c := by
  show Char.ofNat (upperN (pyLower (pyUpper c)).toNat) = _
  rw [toNat_pyLower, toNat_pyUpper, upperN_lowerN_upperN]
  rfl

theorem pyLower_pyUpper_pyLower (c : Char) :
    pyLower (pyUpper (pyLower c)) = pyLower c := by
  show Char.ofNat (lowerN (pyUpper (pyLower c)).toNat) = _
  rw [toNat_pyUpper, toNat_pyLower, lowerN_upperN_lowerN]
  rfl


theorem alookup_dictInsert_self {κ α : Type} [DecidableEq κ]
    (m : List (κ × α)) (k : κ) (v : α) : alookup (dictInsert m k v) k = some v := by
  induction m with
  | nil => simp [dictInsert, alookup]
  | cons p rest ih =>
      by_cases h : p.1 = k
      · simp [dictInsert, h, alookup]
      · simp [dictInsert, h, alookup, ih]

theorem dictInsert_keys {κ α : Type} [DecidableEq κ]
    (m : List (κ × α)) (k : κ) (v : α) :
    (dictInsert m k v).map Prod.fst =
      if k ∈ m.map Prod.fst then m.map Prod.fst else m.map Prod.fst ++ [k] := by
  induction m with
  | nil => simp [dictInsert]
  | cons p rest ih =>
      by_cases hk : p.1 = k
      · subst hk
        simp [dictInsert]
      · have hne : ¬ (k = p.1) := fun h => hk h.symm
        simp only [dictInsert, if_neg hk, List.map_cons, List.mem_cons, hne,
          false_or, ih]
        split <;> simp

theorem dictInsert_keys_nodup {κ α : Type} [DecidableEq κ]
    (m : List (κ × α)) (k : κ) (v : α) (h : (m.map Prod.fst).Nodup) :
    ((dictInsert m k v).map Prod.fst).Nodup := by
  rw [dictInsert_keys]
  split
  · exact h
  · next hmem => simp [List.nodup_append, h, hmem]


/-! ### Constraint-model lemmas -/

theorem checkDomains_spec {g : LayoutGraph} {asn : Assignment}
    (h : checkDomains g asn = true) {p : String × LayoutNode} (hp : p ∈ g.nodes) :
    ∃ r, alookup asn p.1 = some r ∧ 0 ≤ r.x ∧ r.x ≤ g.canvas_width ∧
      0 ≤ r.y ∧ r.y ≤ g.canvas_height ∧
      (widthDomain g p.2).1 ≤ r.w ∧ r.w ≤ (widthDomain g p.2).2 ∧
      (heightDomain g p.2).1 ≤ r.h ∧ r.h ≤ (heightDomain g p.2).2 := by
  unfold checkDomains at h
  have hx := List.all_eq_true.mp h p hp
  cases hr : alookup asn p.1 with
  | none => rw [hr] at hx; cases hx
  | some r =>
      rw [hr] at hx
      exact ⟨r, rfl, of_decide_eq_true hx⟩

theorem checkBoundary_spec {g : LayoutGraph} {asn : Assignment}
    (h : checkBoundary g asn = true) {p : String × LayoutNode} (hp : p ∈ g.nodes) :
    ∃ r, alookup asn p.1 = some r ∧
      r.x + r.w ≤ g.canvas_width ∧ r.y + r.h ≤ g.canvas_height := by
  unfold checkBoundary at h
  have hx := List.all_eq_true.mp h p hp
  cases hr : alookup asn p.1 with
  | none => rw [hr] at hx; cases hx
  | some r =>
      rw [hr] at hx
      exact ⟨r, rfl, of_decide_eq_true hx⟩

theorem layoutSatisfied_parts {g : LayoutGraph} {skip : List Int} {asn : Assignment}
    (h : layoutSatisfied g skip asn = true) :
    checkDomains g asn = true ∧ checkBoundary g asn = true ∧
      checkPairs asn g.nodes = true ∧ checkEdges g skip asn = true := by
  unfold layoutSatisfied at h
  simp only [Bool.and_eq_true] at h
  exact ⟨h.1.1.1, h.1.1.2, h.1.2, h.2⟩

/-- The reified non-overlap constraint projects, on the rectangle
variables, to the plain four-way separation disjunction: the boolean
variables are uniquely determined up to slack, and `AddBoolOr` forces one
of the implications to fire. -/
theorem pairNonOverlapB_iff (ra rb : Rect) :
    pairNonOverlapB ra rb = true ↔
      (ra.x + ra.w ≤ rb.x ∨ rb.x + rb.w ≤ ra.x ∨
       ra.y + ra.h ≤ rb.y ∨ rb.y + rb.h ≤ ra.y) := by
  by_cases h1 : ra.x + ra.w ≤ rb.x <;> by_cases h2 : rb.x + rb.w ≤ ra.x <;>
    by_cases h3 : ra.y + ra.h ≤ rb.y <;> by_cases h4 : rb.y + rb.h ≤ ra.y <;>
      simp [pairNonOverlapB, existsB, h1, h2, h3, h4]

theorem checkPairs_sep {asn : Assignment} :
    ∀ {l : List (String × LayoutNode)}, checkPairs asn l = true →
    ∀ pa ∈ l, ∀ pb ∈ l, pa.1 ≠ pb.1 →
    ∃ ra rb, alookup asn pa.1 = some ra ∧ alookup asn pb.1 = some rb ∧
      (ra.x + ra.w ≤ rb.x ∨ rb.x + rb.w ≤ ra.x ∨
       ra.y + ra.h ≤ rb.y ∨ rb.y + rb.h ≤ ra.y) := by
  intro l
  induction l with
  | nil => intro _ pa hpa; cases hpa
  | cons hd rest ih =>
      obtain ⟨ida, nda⟩ := hd
      intro h pa hpa pb hpb hne
      unfold checkPairs at h
      rw [Bool.and_eq_true] at h
      obtain ⟨hall, hrest⟩ := h
      rcases List.mem_cons.mp hpa with h1 | h1 <;>
        rcases List.mem_cons.mp hpb with h2 | h2
      · exact absurd (by rw [h1, h2]) hne
      · have hx := List.all_eq_true.mp hall pb h2
        cases hra : alookup asn ida with
        | none => rw [hra] at hx; cases hx
        | some ra =>
            cases hrb : alookup asn pb.1 with
            | none => rw [hra, hrb] at hx; cases hx
            | some rb =>
                rw [hra, hrb] at hx
                refine ⟨ra, rb, ?_, rfl, (pairNonOverlapB_iff ra rb).mp hx⟩
                rw [h1]; exact hra
      · have hx := List.all_eq_true.mp hall pa h1
        cases hra : alookup asn ida with
        | none => rw [hra] at hx; cases hx
        | some rb =>
            cases hrb : alookup asn pa.1 with
            | none => rw [hra, hrb] at hx; cases hx
            | some ra =>
                rw [hra, hrb] at hx
                have hsep := (pairNonOverlapB_iff rb ra).mp hx
                refine ⟨ra, rb, rfl, ?_, by tauto⟩
                rw [h2]; exact hra
      · exact ih hrest pa h1 pb h2 hne

/-! ### Claim C2 -/

/-- C2: for every graph and every successful `ConstraintSolver.solve`
result, every node's assigned rectangle satisfies `0 ≤ x`, `0 ≤ y`,
`x + width ≤ canvas_width`, `y + height ≤ canvas_height` (the variable
domains give the lower bounds, `_add_boundary_constraints` the upper
bounds). -/
theorem solve_result_within_bounds (g : LayoutGraph) (skip : List Int)
    (asn : Assignment) (h : layoutSatisfied g skip asn = true) :
    ∀ p ∈ g.nodes, ∃ r, alookup asn p.1 = some r ∧
      0 ≤ r.x ∧ 0 ≤ r.y ∧ r.x + r.w ≤ g.canvas_width ∧ r.y + r.h ≤ g.canvas_height := by
  intro p hp
  obtain ⟨hdom, hbound, -, -⟩ := layoutSatisfied_parts h
  obtain ⟨r, hr, hx0, -, hy0, -, -⟩ := checkDomains_spec hdom hp
  obtain ⟨r', hr', hxw, hyh⟩ := checkBoundary_spec hbound hp
  rw [hr] at hr'
  cases hr'
  exact ⟨r, hr, hx0, hy0, hxw, hyh⟩

/-- Witness for C2 at Scenario A: the fixed 100 by 50 node solved at the
origin of the 400 by 200 canvas. -/
theorem solve_result_within_bounds_witness :
    ∃ r, alookup asnScenarioA "box" = some r ∧
      0 ≤ r.x ∧ 0 ≤ r.y ∧ r.x + r.w ≤ gScenarioA.canvas_width ∧
      r.y + r.h ≤ gScenarioA.canvas_height :=
  solve_result_within_bounds gScenarioA [] asnScenarioA (by decide)
    ("box", { id := "box", node_type := "shape", fixed_width := some 100, fixed_height := some 50 })
    (by decide)

/-! ### Claim C3 -/

/-- C3 counterexample: `asnDiagonal` satisfies the full constraint model of
Scenario B (so it is a possible successful solve result), yet the pair
`(a, b)` satisfies two of the four separation relations at once —
`a` is both strictly left of and strictly above `b` — refuting
"exactly one". -/
theorem separation_not_exactly_one :
    layoutSatisfied gScenarioB [] asnDiagonal = true ∧
    alookup asnDiagonal "a" = some { x := 0, y := 0, w := 100, h := 100 } ∧
    alookup asnDiagonal "b" = some { x := 110, y := 100, w := 100, h := 100 } ∧
    ((0 : Int) + 100 ≤ 110 ∧ (0 : Int) + 100 ≤ 100) := by
  refine ⟨by decide, by decide, by decide, by decide⟩

/-- C3 as amended: every pair of distinct nodes of a successful solve
result satisfies at least one of the four separation relations (the
source posts `AddBoolOr`, a disjunction, not an exactly-one
constraint). -/
theorem solve_result_separated (g : LayoutGraph) (skip : List Int)
    (asn : Assignment) (h : layoutSatisfied g skip asn = true) :
    ∀ pa ∈ g.nodes, ∀ pb ∈ g.nodes, pa.1 ≠ pb.1 →
    ∃ ra rb, alookup asn pa.1 = some ra ∧ alookup asn pb.1 = some rb ∧
      (ra.x + ra.w ≤ rb.x ∨ rb.x + rb.w ≤ ra.x ∨
       ra.y + ra.h ≤ rb.y ∨ rb.y + rb.h ≤ ra.y) := by
  obtain ⟨-, -, hpairs, -⟩ := layoutSatisfied_parts h
  exact checkPairs_sep hpairs

/-- Witness for the amended C3 at Scenario B solved side by side. -/
theorem solve_result_separated_witness :
    ∃ ra rb, alookup asnSideBySide "a" = some ra ∧
      alookup asnSideBySide "b" = some rb ∧
      (ra.x + ra.w ≤ rb.x ∨ rb.x + rb.w ≤ ra.x ∨
       ra.y + ra.h ≤ rb.y ∨ rb.y + rb.h ≤ ra.y) :=
  solve_result_separated gScenarioB [] asnSideBySide (by decide)
    ("a", { id := "a", node_type := "shape", fixed_width := some 100, fixed_height := some 100 })
    (by decide)
    ("b", { id := "b", node_type := "shape", fixed_width := some 100, fixed_height := some 100 })
    (by decide) (by decide)

/-! ### Claim C10 -/

/-- C10 counterexample: a successful solve of a graph containing a node
with declared `fixed_width = -5` assigns that node width `-5 < 1`; the
universal "every node's assigned width and height are at least 1" fails
for nodes with non-positive declared fixed dimensions. -/
theorem fixed_negative_width_solvable :
    layoutSatisfied gNegFixed [] asnNegFixed = true ∧
    alookup asnNegFixed "n" = some { x := 0, y := 0, w := -5, h := 10 } ∧
    ¬ (1 : Int) ≤ -5 := by
  refine ⟨by decide, by decide, by decide⟩

/-- C10 as amended: a successful solve gives every node whose
`fixed_width` is not truthy a width of at least 1, and every node whose
`fixed_height` is not truthy a height of at least 1 (the variable domain
lower bound is `max(1, min_width)` resp. `max(1, min_height)`); a truthy
fixed dimension is assigned exactly, even when non-positive. -/
theorem unfixed_node_min_size (g : LayoutGraph) (skip : List Int)
    (asn : Assignment) (h : layoutSatisfied g skip asn = true) :
    ∀ p ∈ g.nodes, ∃ r, alookup asn p.1 = some r ∧
      (truthy p.2.fixed_width = none → 1 ≤ r.w) ∧
      (truthy p.2.fixed_height = none → 1 ≤ r.h) := by
  intro p hp
  obtain ⟨hdom, -, -, -⟩ := layoutSatisfied_parts h
  obtain ⟨r, hr, -, -, -, -, hw, -, hh, -⟩ := checkDomains_spec hdom hp
  refine ⟨r, hr, ?_, ?_⟩
  · intro hfix
    have : (widthDomain g p.2).1 = max 1 p.2.min_width := by
      unfold widthDomain
      rw [hfix]
    rw [this] at hw
    exact le_trans (le_max_left _ _) hw
  · intro hfix
    have : (heightDomain g p.2).1 = max 1 p.2.min_height := by
      unfold heightDomain
      rw [hfix]
    rw [this] at hh
    exact le_trans (le_max_left _ _) hh

/-- Witness for the amended C10: the all-default node of `gMinZero`
(min dimensions 0, nothing fixed) solved with the minimal 1 by 1
rectangle. -/
theorem unfixed_node_min_size_witness :
    ∃ r, alookup asnMinZero "m" = some r ∧
      (truthy ({ id := "m", node_type := "text" } : LayoutNode).fixed_width = none → 1 ≤ r.w) ∧
      (truthy ({ id := "m", node_type := "text" } : LayoutNode).fixed_height = none → 1 ≤ r.h) :=
  unfixed_node_min_size gMinZero [] asnMinZero (by decide)
    ("m", { id := "m", node_type := "text" }) (by decide)

/-! ### Claim C5 -/

/-- C5 counterexample: `add_node` with an already-present id succeeds and
silently replaces the stored node — no error is reported (the method body
is a plain dict assignment with no duplicate check, in contrast to
`add_edge`, which does raise). -/
theorem add_node_duplicate_overwrites :
    (addNode graphDup nodeDupA2).nodes = [("a", nodeDupA2)] ∧
    alookup (addNode graphDup nodeDupA2).nodes "a" = some nodeDupA2 ∧
    alookup (addNode graphDup nodeDupA2).nodes "a" ≠ some nodeDupA := by
  refine ⟨by decide, by decide, by decide⟩

/-- C5 as amended: `add_node` on a duplicate id silently replaces the
existing node in place; the id-to-node map does keep ids unique (it is a
dict keyed by id), but uniqueness is maintained by overwriting, not by
failing. -/
theorem add_node_upserts (g : LayoutGraph) (n : LayoutNode)
    (h : (g.nodes.map Prod.fst).Nodup) :
    ((addNode g n).nodes.map Prod.fst).Nodup ∧
    alookup (addNode g n).nodes n.id = some n :=
  ⟨dictInsert_keys_nodup _ _ _ h, alookup_dictInsert_self _ _ _⟩

/-- Witness for the amended C5: inserting the duplicate "a" node keeps the
key list duplicate-free and stores the new payload. -/
theorem add_node_upserts_witness :
    ((addNode graphDup nodeDupA2).nodes.map Prod.fst).Nodup ∧
    alookup (addNode graphDup nodeDupA2).nodes nodeDupA2.id = some nodeDupA2 :=
  add_node_upserts graphDup nodeDupA2 (by decide)

/-! ### Claim C4 -/

/-- Aggregation lemma for an arbitrary value of the auto-correction
boolean: `verify`'s aggregate is PASS exactly when all five validators
pass outright.  A spatial failure sets `overall = FAIL` before the
correction attempt and the `if corrected:` branch updates only the layer
status, its `auto_corrected` flag and `needs_solver`, never `overall`. -/
theorem verify_pass_iff (p : VPipeline)
    (synO spatO textO colorO renderO : ValidatorOutcome) (ac : Bool) :
    (verify p synO spatO textO colorO renderO ac).overall = VStatus.PASS ↔
      (synO.passed = true ∧ spatO.passed = true ∧ textO.passed = true ∧
       colorO.passed = true ∧ renderO.passed = true) := by
  cases hs : synO.passed <;> cases h2 : spatO.passed <;> cases h3 : textO.passed <;>
    cases h4 : colorO.passed <;> cases h5 : renderO.passed <;>
      cases hb : p.enable_auto_correction && ac <;>
        simp [verify, hs, h2, h3, h4, h5, hb]

/-- C4: for every candidate, the aggregate status of
`VerificationPipeline.verify` (run with the source's actual
auto-correction callback, which always returns `False`) is PASS exactly
when layers 1 through 5 are all recorded as passing, where a layer whose
recorded status is auto-corrected counts as passing.  With the staged
callback, a spatially failing candidate is recorded FAIL (never
AUTO_CORRECTED), so the auto-corrected proviso is vacuously satisfied. -/
theorem verify_pass_iff_layers (p : VPipeline)
    (synO spatO textO colorO renderO : ValidatorOutcome) :
    (verifyRun p synO spatO textO colorO renderO).overall = VStatus.PASS ↔
      ((verifyRun p synO spatO textO colorO renderO).layers.length = 5 ∧
       ∀ pr ∈ (verifyRun p synO spatO textO colorO renderO).layers,
         pr.2.status = VStatus.PASS ∨ pr.2.status = VStatus.AUTO_CORRECTED) := by
  cases hs : synO.passed <;> cases h2 : spatO.passed <;> cases h3 : textO.passed <;>
    cases h4 : colorO.passed <;> cases h5 : renderO.passed <;>
      simp [verifyRun, verify, tryAutoCorrectSpatial, hs, h2, h3, h4, h5]

/-! ### Claim C6 -/

/-- C6: when the layer-1 syntax validation fails, `verify` returns
immediately with only the syntax layer recorded and action REJECT; the
result does not depend on the spatial, text-readability, color-palette or
rendering outcomes, nor on the auto-correction oracle — those layers are
never executed. -/
theorem syntax_fail_rejects_early (p : VPipeline)
    (synO spatO textO colorO renderO spatO2 textO2 colorO2 renderO2 : ValidatorOutcome)
    (ac ac2 : Bool) (h : synO.passed = false) :
    verify p synO spatO textO colorO renderO ac =
      verify p synO spatO2 textO2 colorO2 renderO2 ac2 ∧
    (verify p synO spatO textO colorO renderO ac).layers.map Prod.fst = ["syntax"] ∧
    (alookup (verify p synO spatO textO colorO renderO ac).layers "syntax").map
        LayerResult.action = some (some FailureAction.REJECT) ∧
    (verify p synO spatO textO colorO renderO ac).overall = VStatus.FAIL := by
  refine ⟨?_, ?_, ?_, ?_⟩ <;> simp [verify, h, alookup]

/-- Witness for C6 at the empty-string syntax failure. -/
theorem syntax_fail_rejects_early_witness :
    (verify pipeDefault ⟨false, ["Empty SVG string"]⟩ ⟨true, []⟩ ⟨true, []⟩ ⟨true, []⟩
        ⟨true, []⟩ false).overall = VStatus.FAIL :=
  (syntax_fail_rejects_early pipeDefault ⟨false, ["Empty SVG string"]⟩ ⟨true, []⟩
    ⟨true, []⟩ ⟨true, []⟩ ⟨true, []⟩ ⟨true, []⟩ ⟨true, []⟩ ⟨true, []⟩ ⟨true, []⟩
    false false (by decide)).2.2.2

/-! ### Relaxation lemmas -/

theorem filter_subset_imp {α : Type} (l : List α) (p q : α → Bool)
    (h : ∀ a ∈ l, p a = true → q a = true) : l.filter p ⊆ l.filter q := by
  intro a ha
  rw [List.mem_filter] at ha ⊢
  exact ⟨ha.1, h a ha.1 ha.2⟩

theorem mem_addLevel {ls : List Int} {a : Int} (v : Int) (h : a ∈ ls) :
    a ∈ addLevel ls v := by
  unfold addLevel
  split
  · exact h
  · exact List.mem_append_left _ h

theorem alookup_map_snd {κ α β : Type} [DecidableEq κ]
    (m : List (κ × α)) (f : α → β) (k : κ) :
    alookup (m.map fun p => (p.1, f p.2)) k = (alookup m k).map f := by
  induction m with
  | nil => rfl
  | cons p rest ih => by_cases h : p.1 = k <;> simp [alookup, h, ih]

/-- Adding a relaxed level shrinks the per-edge inclusion predicate. -/
theorem edgeIncludedP_addLevel {g : LayoutGraph} {ls : List Int} {v : Int} {k : Nat}
    (hp : edgeIncludedP g (addLevel ls v) k = true) : edgeIncludedP g ls k = true := by
  unfold edgeIncludedP at hp ⊢
  cases hget : g.edges.get? k with
  | none => rw [hget] at hp; cases hp
  | some e =>
      rw [hget] at hp
      have hp' : (decide (e.priority ∉ addLevel ls v) &&
          (alookup g.nodes e.source_id).isSome &&
          (alookup g.nodes e.target_id).isSome) = true := hp
      show (decide (e.priority ∉ ls) && (alookup g.nodes e.source_id).isSome &&
        (alookup g.nodes e.target_id).isSome) = true
      simp only [Bool.and_eq_true, decide_eq_true_eq] at hp' ⊢
      exact ⟨⟨fun hmem => hp'.1.1 (mem_addLevel v hmem), hp'.1.2⟩, hp'.2⟩

/-- Adding a relaxed level shrinks the included edge set. -/
theorem included_subset_addLevel (g : LayoutGraph) (ls : List Int)
    (adj adj' : List String) (v : Int) :
    includedEdgeIdx ⟨g, addLevel ls v, adj'⟩ ⊆ includedEdgeIdx ⟨g, ls, adj⟩ := by
  unfold includedEdgeIdx
  exact filter_subset_imp _ _ _ fun k _ => edgeIncludedP_addLevel

/-- Shrinking node dimensions touches neither the edge list nor the node
keys: the per-edge inclusion predicate is unchanged. -/
theorem edgeIncludedP_reduceSizes (g : LayoutGraph) (ls : List Int) (k : Nat) :
    edgeIncludedP (reduceElementSizes g) ls k = edgeIncludedP g ls k := by
  unfold edgeIncludedP
  have he : (reduceElementSizes g).edges = g.edges := rfl
  rw [he]
  cases hget : g.edges.get? k with
  | none => rfl
  | some e =>
      have hs : ∀ kk, (alookup (reduceElementSizes g).nodes kk).isSome =
          (alookup g.nodes kk).isSome := by
        intro kk
        show (alookup (g.nodes.map fun p => (p.1, reduceNodeSizes p.2)) kk).isSome = _
        rw [alookup_map_snd]
        cases alookup g.nodes kk <;> rfl
      show (decide (e.priority ∉ ls) &&
          (alookup (reduceElementSizes g).nodes e.source_id).isSome &&
          (alookup (reduceElementSizes g).nodes e.target_id).isSome) =
        (decide (e.priority ∉ ls) && (alookup g.nodes e.source_id).isSome &&
          (alookup g.nodes e.target_id).isSome)
      rw [hs, hs]

theorem included_reduceSizes (g : LayoutGraph) (ls : List Int)
    (adj adj' : List String) :
    includedEdgeIdx ⟨reduceElementSizes g, ls, adj'⟩ = includedEdgeIdx ⟨g, ls, adj⟩ := by
  unfold includedEdgeIdx
  have he : (reduceElementSizes g).edges = g.edges := rfl
  show (List.range (reduceElementSizes g).edges.length).filter _ = _
  rw [he]
  exact List.filter_congr fun k _ => edgeIncludedP_reduceSizes g ls k

theorem reduceMarginEdge_priority (e : LayoutEdge) :
    (reduceMarginEdge e).priority = e.priority := by
  unfold reduceMarginEdge; split <;> rfl

theorem reduceMarginEdge_source (e : LayoutEdge) :
    (reduceMarginEdge e).source_id = e.source_id := by
  unfold reduceMarginEdge; split <;> rfl

theorem reduceMarginEdge_target (e : LayoutEdge) :
    (reduceMarginEdge e).target_id = e.target_id := by
  unfold reduceMarginEdge; split <;> rfl

/-- Halving edge margins changes only edge values: the per-edge inclusion
predicate is unchanged. -/
theorem edgeIncludedP_reduceMargins (g : LayoutGraph) (ls : List Int) (k : Nat) :
    edgeIncludedP (reduceMargins g) ls k = edgeIncludedP g ls k := by
  unfold edgeIncludedP
  have hn : (reduceMargins g).nodes = g.nodes := rfl
  have hget : (reduceMargins g).edges.get? k = (g.edges.get? k).map reduceMarginEdge := by
    show (g.edges.map reduceMarginEdge).get? k = _
    simp [List.get?_eq_getElem?, List.getElem?_map]
  rw [hget, hn]
  cases g.edges.get? k with
  | none => rfl
  | some e =>
      show (decide ((reduceMarginEdge e).priority ∉ ls) && _ && _) = _
      rw [reduceMarginEdge_priority, reduceMarginEdge_source, reduceMarginEdge_target]

theorem included_reduceMargins (g : LayoutGraph) (ls : List Int)
    (adj adj' : List String) :
    includedEdgeIdx ⟨reduceMargins g, ls, adj'⟩ = includedEdgeIdx ⟨g, ls, adj⟩ := by
  unfold includedEdgeIdx
  have hlen : (reduceMargins g).edges.length = g.edges.length := by
    show (g.edges.map reduceMarginEdge).length = _
    rw [List.length_map]
  show (List.range (reduceMargins g).edges.length).filter _ = _
  rw [hlen]
  exact List.filter_congr fun k _ => edgeIncludedP_reduceMargins g ls k

/-! ### Claim C7 -/

/-- C7: across the attempts of `solve_with_relaxation` (attempt `i+1` uses
state `relaxStateAt g i`), the set of edges included in the constraint
model at attempt N+1 is a subset of the set included at attempt N, for
every attempt up to (not including) the final fixed-stack fallback
attempt (which uses `relaxStateAt g 5`).  Edges are identified by their
index in the graph edge list; margin reduction rewrites values but keeps
priorities, endpoints and positions. -/
theorem relaxation_monotone (g : LayoutGraph) (i : Nat) (h : i + 1 ≤ 4) :
    includedEdgeIdx (relaxStateAt g (i + 1)) ⊆ includedEdgeIdx (relaxStateAt g i) := by
  have h3 : i ≤ 3 := by omega
  interval_cases i
  · exact included_subset_addLevel g [] []
      ["Relaxed aesthetic constraints (padding, alignment)"] AESTHETIC
  · exact included_subset_addLevel g (addLevel [] AESTHETIC)
      ["Relaxed aesthetic constraints (padding, alignment)"]
      ["Relaxed aesthetic constraints (padding, alignment)",
       "Relaxed structural constraints (spacing relationships)"] STRUCTURAL
  · intro a ha
    exact (included_reduceSizes g (addLevel (addLevel [] AESTHETIC) STRUCTURAL)
      ["Relaxed aesthetic constraints (padding, alignment)",
       "Relaxed structural constraints (spacing relationships)"]
      ["Relaxed aesthetic constraints (padding, alignment)",
       "Relaxed structural constraints (spacing relationships)",
       "Reduced element sizes by 20%"]) ▸ ha
  · intro a ha
    exact (included_reduceMargins (reduceElementSizes g)
      (addLevel (addLevel [] AESTHETIC) STRUCTURAL)
      ["Relaxed aesthetic constraints (padding, alignment)",
       "Relaxed structural constraints (spacing relationships)",
       "Reduced element sizes by 20%"]
      ["Relaxed aesthetic constraints (padding, alignment)",
       "Relaxed structural constraints (spacing relationships)",
       "Reduced element sizes by 20%",
       "Reduced all margins by 50%"]) ▸ ha

/-- Witness for C7: the first degradation step on the two-node graph with
one structural edge. -/
theorem relaxation_monotone_witness :
    includedEdgeIdx (relaxStateAt gTwoEdge 1) ⊆ includedEdgeIdx (relaxStateAt gTwoEdge 0) :=
  relaxation_monotone gTwoEdge 0 (by decide)

/-! ### Claim C1 -/

/-- C1 (code bug): run to the final fallback, `solve_with_relaxation` does
NOT always return success.  On `gFallback` (positive 100 by 30 canvas, one
node), `_apply_minimal_layout` pins the node height to
`min(max(40, 30 // 1), 80) = 40`, which cannot satisfy
`y ≥ 0 ∧ y + height ≤ 30`: the final solve's model is infeasible for
every assignment, so the final attempt returns `success = False`. -/
theorem minimal_fallback_infeasible :
    (relaxStateAt gFallback 5).graph = gFallbackFinal ∧
    (relaxStateAt gFallback 5).relaxed_levels = [2, 1] ∧
    ∀ asn : Assignment, layoutSatisfied gFallbackFinal [2, 1] asn = false := by
  refine ⟨by decide, by decide, ?_⟩
  intro asn
  cases hres : layoutSatisfied gFallbackFinal [2, 1] asn with
  | false => rfl
  | true =>
      exfalso
      obtain ⟨hdom, hbound, -, -⟩ := layoutSatisfied_parts hres
      obtain ⟨r, hr, -, -, hy0, -, -, -, hh1, hh2⟩ :=
        checkDomains_spec hdom (p := ("a", nodeFallbackFinal)) (by decide)
      obtain ⟨r2, hr2, -, hyh⟩ :=
        checkBoundary_spec hbound (p := ("a", nodeFallbackFinal)) (by decide)
      rw [hr] at hr2
      cases hr2
      have hdh : heightDomain gFallbackFinal nodeFallbackFinal = (40, 40) := by decide
      rw [hdh] at hh1 hh2
      have hch : gFallbackFinal.canvas_height = 30 := by decide
      rw [hch] at hyh
      simp only at hh1 hh2
      omega

/-! ### WCAG lemmas -/

theorem hexToRgb_nonneg {x : String} {r g b : ℚ}
    (h : hexToRgb x = some (r, g, b)) : 0 ≤ r ∧ 0 ≤ g ∧ 0 ≤ b := by
  unfold hexToRgb at h
  dsimp only at h
  split at h
  · rename_i c1 c2 c3 c4 c5 c6 heq
    cases hp1 : hexPair c1 c2 with
    | none => rw [hp1] at h; simp at h
    | some n1 =>
        rw [hp1] at h
        cases hp2 : hexPair c3 c4 with
        | none => rw [hp2] at h; simp at h
        | some n2 =>
            rw [hp2] at h
            cases hp3 : hexPair c5 c6 with
            | none => rw [hp3] at h; simp at h
            | some n3 =>
                rw [hp3] at h
                have h' : some ((n1 : ℚ) / 255, (n2 : ℚ) / 255, (n3 : ℚ) / 255) =
                    some (r, g, b) := h
                rw [Option.some.injEq, Prod.mk.injEq, Prod.mk.injEq] at h'
                obtain ⟨h1, h2, h3⟩ := h'
                subst h1
                subst h2
                subst h3
                refine ⟨by positivity, by positivity, by positivity⟩
  · cases h

theorem linearize_nonneg (v : ℚ) (h : 0 ≤ v) : 0 ≤ linearize v := by
  have hv : (0 : ℝ) ≤ (v : ℝ) := by exact_mod_cast h
  unfold linearize
  split
  · positivity
  · exact Real.rpow_nonneg (by positivity) _

theorem relativeLuminance_nonneg (r g b : ℚ) (hr : 0 ≤ r) (hg : 0 ≤ g)
    (hb : 0 ≤ b) : 0 ≤ relativeLuminance r g b := by
  unfold relativeLuminance
  have h1 := linearize_nonneg r hr
  have h2 := linearize_nonneg g hg
  have h3 := linearize_nonneg b hb
  refine add_nonneg (add_nonneg ?_ ?_) ?_ <;>
    exact mul_nonneg (by norm_num) (by assumption)

/-! ### Claim C9 -/

/-- C9: the WCAG contrast ratio is symmetric; it is 1 on any valid hex
colour paired with itself; and on black versus white it is exactly 21
(hence within the 0.01 tolerance of 21.0). -/
theorem contrast_ratio_properties :
    (∀ c1 c2, contrastRatio c1 c2 = contrastRatio c2 c1) ∧
    (∀ x v, hexToRgb x = some v → contrastRatio x x = some 1) ∧
    (∃ r, contrastRatio "#000000" "#FFFFFF" = some r ∧ |r - 21| ≤ (0.01 : ℝ)) := by
  refine ⟨?_, ?_, ?_⟩
  · intro c1 c2
    unfold contrastRatio
    cases h1 : hexToRgb c1 with
    | none => cases h2 : hexToRgb c2 <;> rfl
    | some v1 =>
        cases h2 : hexToRgb c2 with
        | none => rfl
        | some v2 =>
            obtain ⟨r1, g1, b1⟩ := v1
            obtain ⟨r2, g2, b2⟩ := v2
            show some _ = some _
            rw [max_comm, min_comm]
  · intro x v h
    obtain ⟨r, g, b⟩ := v
    obtain ⟨hr, hg, hb⟩ := hexToRgb_nonneg h
    have hl : 0 ≤ relativeLuminance r g b := relativeLuminance_nonneg r g b hr hg hb
    unfold contrastRatio
    rw [h]
    show some ((max (relativeLuminance r g b) (relativeLuminance r g b) + 0.05) /
      (min (relativeLuminance r g b) (relativeLuminance r g b) + 0.05)) = some 1
    rw [max_self, min_self, div_self (by linarith)]
  · refine ⟨21, ?_, by norm_num⟩
    have h0 : hexToRgb "#000000" = some (0, 0, 0) := by
      show some ((((0 : ℕ) : ℚ)) / 255, (((0 : ℕ) : ℚ)) / 255, (((0 : ℕ) : ℚ)) / 255) =
        some (0, 0, 0)
      norm_num
    have h1 : hexToRgb "#FFFFFF" = some (1, 1, 1) := by
      show some ((((255 : ℕ) : ℚ)) / 255, (((255 : ℕ) : ℚ)) / 255, (((255 : ℕ) : ℚ)) / 255) =
        some (1, 1, 1)
      norm_num
    unfold contrastRatio
    rw [h0, h1]
    have lum0 : relativeLuminance 0 0 0 = 0 := by
      unfold relativeLuminance linearize
      rw [if_pos (by norm_num : ((0 : ℚ) : ℝ) ≤ 0.03928)]
      norm_num
    have lum1 : relativeLuminance 1 1 1 = 1 := by
      unfold relativeLuminance linearize
      rw [if_neg (by norm_num : ¬ ((1 : ℚ) : ℝ) ≤ 0.03928)]
      rw [show (((1 : ℚ) : ℝ) + 0.055) / 1.055 = 1 by norm_num, Real.one_rpow]
      norm_num
    show some ((max (relativeLuminance 0 0 0) (relativeLuminance 1 1 1) + 0.05) /
      (min (relativeLuminance 0 0 0) (relativeLuminance 1 1 1) + 0.05)) = some 21
    rw [lum0, lum1]
    rw [max_eq_right (by norm_num : (0 : ℝ) ≤ 1), min_eq_left (by norm_num : (0 : ℝ) ≤ 1)]
    norm_num

/-- Witness for C9: the reflexivity clause applied at white. -/
theorem contrast_ratio_properties_witness :
    contrastRatio "#FFFFFF" "#FFFFFF" = some 1 :=
  contrast_ratio_properties.2.1 "#FFFFFF" (1, 1, 1) (by
    show some ((((255 : ℕ) : ℚ)) / 255, (((255 : ℕ) : ℚ)) / 255, (((255 : ℕ) : ℚ)) / 255) =
      some (1, 1, 1)
    norm_num)

/-! ### Colour-normalization lemmas -/

theorem isSpaceN_lowerN (n : Nat) :
    (decide (lowerN n ∈ [32, 9, 10, 11, 12, 13])) = decide (n ∈ [32, 9, 10, 11, 12, 13]) := by
  unfold lowerN
  split
  · simp only [List.mem_cons, List.not_mem_nil, or_false, decide_eq_decide]
    constructor <;> intro h2 <;> omega
  · rfl

theorem isSpaceN_upperN (n : Nat) :
    (decide (upperN n ∈ [32, 9, 10, 11, 12, 13])) = decide (n ∈ [32, 9, 10, 11, 12, 13]) := by
  unfold upperN
  split
  · simp only [List.mem_cons, List.not_mem_nil, or_false, decide_eq_decide]
    constructor <;> intro h2 <;> omega
  · rfl

theorem isPySpace_pyLower (c : Char) : isPySpace (pyLower c) = isPySpace c := by
  unfold isPySpace
  rw [toNat_pyLower]
  exact isSpaceN_lowerN c.toNat

theorem isPySpace_pyUpper (c : Char) : isPySpace (pyUpper c) = isPySpace c := by
  unfold isPySpace
  rw [toNat_pyUpper]
  exact isSpaceN_upperN c.toNat

theorem dropWhile_eq_self_of_head (p : Char → Bool) (l : List Char)
    (h : ∀ c, l.head? = some c → p c = false) : l.dropWhile p = l := by
  cases l with
  | nil => rfl
  | cons a l => simp [List.dropWhile_cons, h a rfl]

theorem head?_dropWhile_false (p : Char → Bool) :
    ∀ (l : List Char) (c : Char), (l.dropWhile p).head? = some c → p c = false := by
  intro l
  induction l with
  | nil => intro c hc; cases hc
  | cons a l ih =>
      intro c hc
      rw [List.dropWhile_cons] at hc
      by_cases ha : p a = true
      · rw [if_pos ha] at hc
        exact ih c hc
      · rw [if_neg ha] at hc
        cases hc
        simpa using ha

theorem pyStrip_eq_self (l : List Char)
    (hh : ∀ c, l.head? = some c → isPySpace c = false)
    (hl : ∀ c, l.getLast? = some c → isPySpace c = false) : pyStrip l = l := by
  unfold pyStrip
  rw [dropWhile_eq_self_of_head _ _ hh]
  rw [dropWhile_eq_self_of_head _ _ (fun c hc => hl c ((List.head?_reverse l) ▸ hc))]
  exact List.reverse_reverse l

theorem pyStrip_getLast_not_space (l : List Char) (c : Char)
    (hc : (pyStrip l).getLast? = some c) : isPySpace c = false := by
  unfold pyStrip at hc
  rw [List.getLast?_reverse] at hc
  exact head?_dropWhile_false isPySpace _ c hc

theorem lc_getLast_not_space (l : List Char) (c : Char)
    (hc : ((pyStrip l).map pyLower).getLast? = some c) : isPySpace c = false := by
  rw [List.getLast?_map] at hc
  cases ha : (pyStrip l).getLast? with
  | none => rw [ha] at hc; cases hc
  | some a =>
      rw [ha] at hc
      cases hc
      rw [isPySpace_pyLower]
      exact pyStrip_getLast_not_space l a ha

theorem alookup_mem {κ α : Type} [DecidableEq κ] (m : List (κ × α)) (k : κ) (v : α)
    (h : alookup m k = some v) : (k, v) ∈ m := by
  induction m with
  | nil => cases h
  | cons p rest ih =>
      obtain ⟨k', v'⟩ := p
      by_cases hk : k' = k
      · subst hk
        rw [show alookup ((k', v') :: rest) k' = some v' by simp [alookup]] at h
        cases h
        exact List.mem_cons_self _ _
      · rw [show alookup ((k', v') :: rest) k = alookup rest k by simp [alookup, hk]] at h
        exact List.mem_cons_of_mem _ (ih h)

theorem alookup_none_of_head_ne {β : Type} (m : List (List Char × β)) (k : List Char)
    (hm : ∀ p ∈ m, p.1.head? ≠ k.head?) : alookup m k = none := by
  induction m with
  | nil => rfl
  | cons p rest ih =>
      obtain ⟨k', v⟩ := p
      show (if k' = k then some v else alookup rest k) = none
      rw [if_neg, ih (fun q hq => hm q (List.mem_cons_of_mem _ hq))]
      intro hkk
      exact hm ⟨k', v⟩ (List.mem_cons_self _ _) (by rw [hkk])

/-- No named-colour key starts with a hash. -/
theorem namedColors_no_hash : ∀ p ∈ namedColors, p.1.head? ≠ some '#' := by decide

/-- Every hex value stored in the named-colour table re-normalizes to
itself. -/
theorem namedColors_values_stable :
    namedColors.all (fun p => match p.2 with
      | some v => normCore v == some v
      | none => true) = true := by decide

theorem pyLower_hash : pyLower '#' = '#' := rfl

theorem hexUpperDigit_stable (n : Nat) (hn : n ≤ 15) :
    pyUpper (pyLower (hexUpperDigit n)) = hexUpperDigit n := by
  unfold hexUpperDigit
  split
  · show pyUpper (Char.ofNat (lowerN (Char.ofNat (48 + n)).toNat)) = _
    rw [toNat_ofNat_valid (48 + n) (Or.inl (by omega))]
    rw [show lowerN (48 + n) = 48 + n by unfold lowerN; rw [if_neg (by omega)]]
    show Char.ofNat (upperN (Char.ofNat (48 + n)).toNat) = _
    rw [toNat_ofNat_valid (48 + n) (Or.inl (by omega))]
    rw [show upperN (48 + n) = 48 + n by unfold upperN; rw [if_neg (by omega)]]
  · show pyUpper (Char.ofNat (lowerN (Char.ofNat (55 + n)).toNat)) = _
    rw [toNat_ofNat_valid (55 + n) (Or.inl (by omega))]
    rw [show lowerN (55 + n) = 87 + n by unfold lowerN; rw [if_pos (by omega)]; omega]
    show Char.ofNat (upperN (Char.ofNat (87 + n)).toNat) = _
    rw [toNat_ofNat_valid (87 + n) (Or.inl (by omega))]
    rw [show upperN (87 + n) = 55 + n by unfold upperN; rw [if_pos (by omega)]; omega]

theorem hexUpperDigit_not_space (n : Nat) (hn : n ≤ 15) :
    isPySpace (hexUpperDigit n) = false := by
  unfold hexUpperDigit isPySpace
  split <;> rw [toNat_ofNat_valid _ (Or.inl (by omega))] <;>
    simp only [List.mem_cons, List.not_mem_nil, or_false, decide_eq_false_iff_not] <;>
      intro hcon <;> omega

/-- Re-normalizing a hash-headed six-character output is the identity:
the stripped, lower-cased rerun takes the hex branch and upper-cases back
to the same string. -/
theorem normCore_hash_reapply (t : List Char) (h6 : t.length = 6)
    (hstab : ∀ c ∈ t, pyUpper (pyLower c) = c)
    (hlast : ∀ c, t.getLast? = some c → isPySpace c = false) :
    normCore ('#' :: t) = some ('#' :: t) := by
  obtain ⟨c0, t0, rfl⟩ : ∃ c0 t0, t = c0 :: t0 := by
    cases t with
    | nil => cases h6
    | cons a b => exact ⟨a, b, rfl⟩
  have hstrip : pyStrip ('#' :: c0 :: t0) = '#' :: c0 :: t0 := by
    apply pyStrip_eq_self
    · intro c hc
      rw [show ('#' :: c0 :: t0).head? = some '#' from rfl] at hc
      cases hc
      rfl
    · intro c hc
      rw [List.getLast?_cons_cons] at hc
      exact hlast c hc
  unfold normCore
  rw [hstrip, List.map_cons, pyLower_hash]
  unfold normCoreLC
  rw [alookup_none_of_head_ne _ _
    (fun p hp hq => namedColors_no_hash p hp (by simpa using hq))]
  dsimp only
  have hlen : ((c0 :: t0).map pyLower).length = 6 := by
    rw [List.length_map]; exact h6
  have hv2eq : (if ('#' :: (c0 :: t0).map pyLower).tail.length = 3
      then expandShorthand ('#' :: (c0 :: t0).map pyLower).tail
      else ('#' :: (c0 :: t0).map pyLower).tail) = (c0 :: t0).map pyLower := by
    rw [show ('#' :: (c0 :: t0).map pyLower).tail = (c0 :: t0).map pyLower from rfl]
    rw [if_neg (show ¬ ((c0 :: t0).map pyLower).length = 3 by rw [hlen]; decide)]
  rw [hv2eq]
  rw [if_pos (show ('#' :: (c0 :: t0).map pyLower).head? = some '#' from rfl)]
  rw [if_pos hlen]
  show some ('#' :: ((c0 :: t0).map pyLower).map pyUpper) = some ('#' :: c0 :: t0)
  rw [List.map_map]
  have hmap : (c0 :: t0).map (pyUpper ∘ pyLower) = c0 :: t0 :=
    (List.map_congr_left (g := id) fun a ha => hstab a ha).trans (List.map_id _)
  rw [hmap]

/-- Re-normalizing the `f"#{r:02X}{g:02X}{b:02X}"` output of the rgb/rgba
branches is the identity. -/
theorem rgbHexOut_reapply (r g b : Nat) :
    normCore (rgbHexOut r g b) = some (rgbHexOut r g b) := by
  have hdiv : ∀ n : Nat, clamp255 n / 16 ≤ 15 := by
    intro n; unfold clamp255; omega
  have hmod : ∀ n : Nat, clamp255 n % 16 ≤ 15 := by
    intro n; omega
  show normCore ('#' :: (toHex2 (clamp255 r) ++ toHex2 (clamp255 g) ++ toHex2 (clamp255 b))) =
    some ('#' :: (toHex2 (clamp255 r) ++ toHex2 (clamp255 g) ++ toHex2 (clamp255 b)))
  apply normCore_hash_reapply
  · simp [toHex2]
  · intro c hc
    simp only [toHex2, List.append_assoc, List.cons_append, List.nil_append,
      List.mem_cons, List.not_mem_nil, or_false] at hc
    rcases hc with rfl | rfl | rfl | rfl | rfl | rfl
    · exact hexUpperDigit_stable _ (hdiv r)
    · exact hexUpperDigit_stable _ (hmod r)
    · exact hexUpperDigit_stable _ (hdiv g)
    · exact hexUpperDigit_stable _ (hmod g)
    · exact hexUpperDigit_stable _ (hdiv b)
    · exact hexUpperDigit_stable _ (hmod b)
  · intro c hc
    rw [show (toHex2 (clamp255 r) ++ toHex2 (clamp255 g) ++ toHex2 (clamp255 b)).getLast? =
      some (hexUpperDigit (clamp255 b % 16)) from rfl] at hc
    cases hc
    exact hexUpperDigit_not_space _ (hmod b)

/-! ### Claim C8 -/

/-- Whenever `_normalize_color` returns a string, feeding that string back
returns the same string (List Char level). -/
theorem normCore_idem (l out : List Char) (h : normCore l = some out) :
    normCore out = some out := by
  have hlast0 : ∀ c, ((pyStrip l).map pyLower).getLast? = some c → isPySpace c = false :=
    lc_getLast_not_space l
  unfold normCore at h
  unfold normCoreLC at h
  cases hname : alookup namedColors ((pyStrip l).map pyLower) with
  | some v =>
      rw [hname] at h
      have hv : v = some out := h
      rw [hv] at hname
      have hmem := alookup_mem _ _ _ hname
      have htab : (normCore out == some out) = true :=
        List.all_eq_true.mp namedColors_values_stable _ hmem
      exact eq_of_beq htab
  | none =>
      rw [hname] at h
      dsimp only at h
      by_cases hhash : ((pyStrip l).map pyLower).head? = some '#'
      · rw [if_pos hhash] at h
        obtain ⟨hv, hlceq⟩ : ∃ hv, (pyStrip l).map pyLower = '#' :: hv := by
          cases hsh : (pyStrip l).map pyLower with
          | nil => rw [hsh] at hhash; cases hhash
          | cons a rest =>
              rw [hsh] at hhash
              have ha : some a = some '#' := hhash
              cases ha
              exact ⟨rest, rfl⟩
        rw [hlceq] at h hlast0
        rw [show ('#' :: hv).tail = hv from rfl] at h
        by_cases h3 : hv.length = 3
        · obtain ⟨x, y, z, rfl⟩ : ∃ x y z, hv = [x, y, z] := by
            cases hv with
            | nil => cases h3
            | cons x hv =>
                cases hv with
                | nil => cases h3
                | cons y hv =>
                    cases hv with
                    | nil => cases h3
                    | cons z hv =>
                        cases hv with
                        | nil => exact ⟨x, y, z, rfl⟩
                        | cons w hv => simp at h3
          rw [if_pos h3] at h
          rw [show expandShorthand [x, y, z] = [x, x, y, y, z, z] from rfl] at h
          rw [if_pos (show ([x, x, y, y, z, z] : List Char).length = 6 from rfl)] at h
          have h' : some ('#' :: [x, x, y, y, z, z].map pyUpper) = some out := h
          injection h' with h''
          subst h''
          apply normCore_hash_reapply
          · rfl
          · intro c hc
            rw [show ([x, x, y, y, z, z].map pyUpper) =
              [pyUpper x, pyUpper x, pyUpper y, pyUpper y, pyUpper z, pyUpper z] from rfl] at hc
            simp only [List.mem_cons, List.not_mem_nil, or_false] at hc
            rcases hc with rfl | rfl | rfl | rfl | rfl | rfl <;>
              exact pyUpper_pyLower_pyUpper _
          · intro c hc
            rw [show ([x, x, y, y, z, z].map pyUpper).getLast? = some (pyUpper z) from rfl] at hc
            cases hc
            rw [isPySpace_pyUpper]
            exact hlast0 z rfl
        · rw [if_neg h3] at h
          by_cases h66 : hv.length = 6
          · rw [if_pos h66] at h
            have h' : some ('#' :: hv.map pyUpper) = some out := h
            injection h' with h''
            subst h''
            obtain ⟨b0, hv0, rfl⟩ : ∃ b0 hv0, hv = b0 :: hv0 := by
              cases hv with
              | nil => cases h66
              | cons b0 hv0 => exact ⟨b0, hv0, rfl⟩
            apply normCore_hash_reapply
            · rw [List.length_map]; exact h66
            · intro c hc
              obtain ⟨a, -, rfl⟩ := List.mem_map.mp hc
              exact pyUpper_pyLower_pyUpper a
            · intro c hc
              rw [List.getLast?_map] at hc
              cases hla : (b0 :: hv0).getLast? with
              | none => rw [hla] at hc; cases hc
              | some a =>
                  rw [hla] at hc
                  cases hc
                  rw [isPySpace_pyUpper]
                  apply hlast0 a
                  rw [List.getLast?_cons_cons]
                  exact hla
          · rw [if_neg h66] at h
            dsimp only at h
            rw [show parseRgb ('#' :: hv) = none from rfl] at h
            dsimp only at h
            rw [show parseRgba ('#' :: hv) = none from rfl] at h
            exact absurd h (by simp)
      · rw [if_neg hhash] at h
        dsimp only at h
        cases hrgb : parseRgb ((pyStrip l).map pyLower) with
        | some v =>
            obtain ⟨r, g, b⟩ := v
            rw [hrgb] at h
            have h' : some (rgbHexOut r g b) = some out := h
            injection h' with h''
            subst h''
            exact rgbHexOut_reapply r g b
        | none =>
            rw [hrgb] at h
            dsimp only at h
            cases hrgba : parseRgba ((pyStrip l).map pyLower) with
            | some v =>
                obtain ⟨r, g, b⟩ := v
                rw [hrgba] at h
                have h' : some (rgbHexOut r g b) = some out := h
                injection h' with h''
                subst h''
                exact rgbHexOut_reapply r g b
            | none =>
                rw [hrgba] at h
                exact absurd h (by simp)

/-- C8: colour normalization is idempotent — for every colour string on
which `_normalize_color` returns a value, re-normalizing that value
returns it unchanged. -/
theorem normalize_color_idempotent (c s : String) (h : normalizeColor c = some s) :
    normalizeColor s = some s := by
  unfold normalizeColor at h ⊢
  cases hn : normCore c.data with
  | none => rw [hn] at h; cases h
  | some out =>
      rw [hn] at h
      have h' : some (String.mk out) = some s := h
      injection h' with h''
      subst h''
      rw [show (String.mk out).data = out from rfl]
      rw [normCore_idem c.data out hn]
      rfl

/-- Witness for C8: normalizing the Scenario-E colour `rgb(255, 0, 0)`
gives `#FF0000`, which re-normalizes to itself. -/
theorem normalize_color_idempotent_witness :
    normalizeColor "#FF0000" = some "#FF0000" :=
  normalize_color_idempotent "rgb(255, 0, 0)" "#FF0000" (by decide)

end Morph
